import Mathlib

/-
Shallow embedding of the intervensie.py application (a Streamlit web form that
logs school intervention-class attendance sessions into a flat CSV table,
filters the rows by a date window, and renders a Word report).

Modelling conventions, each justified against the Python source:

- The durable CSV table is a `List StoredRow`; one `StoredRow` per data row,
  fields in the declared column order.  Empty path cells read back from the CSV
  as pandas NaN, hence the artifact reference fields are `Option String`.
- Dates: the app writes dates with `datum.strftime("%Y-%m-%d")`, so the table
  holds strict ISO-8601 date strings.  `pd.to_datetime(..., errors="coerce")`
  is modelled by `parseIsoDate`, which accepts exactly the strict ISO form and
  returns the civil day number (days since 1970-01-01, Hinnant's algorithm);
  an unparseable date becomes `none`, modelling pandas `NaT`.
- "now" (`datetime.today()`) carries a time of day, so it is a rational number
  of days; stored dates parse to whole days (midnight).
- The derived column `Aanwesigheid %` is
  `(df["Totaal Opgedaag"] / df["Totaal Genooi"] * 100).round(2)`.
  The rounded value is modelled exactly as an integer count of hundredths of a
  percent (`pctHundredths`), using the half-to-even tie rule that numpy/pandas
  rounding applies (1/32 → 3.12); the bridging theorem
  `pct_matches_rounded_formula` relates it to the exact rational formula.
  Division by an invited count of zero yields a non-finite float in pandas
  (inf, or NaN for 0/0), never an exception; both non-finite outcomes are
  modelled as `none`.
- The generated Word document is a `List DocElem` (headings, paragraphs,
  tables, embedded pictures).  `row['Datum'].strftime('%Y-%m-%d')` raises
  `ValueError` on NaT, so rendering is `Except String (List DocElem)`; for a
  row whose date parsed, strftime round-trips the original ISO string.
- The filesystem visible to the renderer and the deletion handler is explicit
  data: a list of existing paths, plus parsed contents for attendance sheets
  that `pd.read_csv` / `pd.read_excel` can read (an unreadable sheet is simply
  absent, matching the `except` branch returning None).
- The GitHub mirror is modelled by its observable interface: the token/repo
  configuration, whether the local file exists and whether the remote calls
  succeed are inputs, and the function returns the success flag exactly along
  the branch structure of `upload_file_to_github`.
-/

namespace Intervensie

/-- Gregorian leap-year test. -/
def isLeap (y : Nat) : Bool := y % 4 == 0 && (y % 100 != 0 || y % 400 == 0)

/-- Number of days in month `m` of year `y`. -/
def daysInMonth (y m : Nat) : Nat :=
  if m = 2 then (if isLeap y then 29 else 28)
  else if m = 4 ∨ m = 6 ∨ m = 9 ∨ m = 11 then 30
  else 31

/-- Civil day number (days since 1970-01-01) of a Gregorian date, for years
uses only `Nat` arithmetic so that it evaluates in the kernel. -/
def daysFromCivil (y m d : Nat) : Int :=
  let yAdj := if m ≤ 2 then y - 1 else y
  let era := yAdj / 400
  let yoe := yAdj - era * 400
  let mp := if 2 < m then m - 3 else m + 9
  let doy := (153 * mp + 2) / 5 + d - 1
  let doe := yoe * 365 + yoe / 4 - yoe / 100 + doy
  (era : Int) * 146097 + (doe : Int) - 719468

/-- Split a character list at every occurrence of `sep` (like Python
`str.split`, which never returns an empty list). -/
def charListSplit (sep : Char) : List Char → List (List Char)
  | [] => [[]]
  | c :: cs =>
    match charListSplit sep cs with
    | [] => [[c]]
    | h :: t => if c = sep then [] :: h :: t else (c :: h) :: t

/-- Read a non-empty all-digit character list as a natural number. -/
def digitsToNat (l : List Char) : Option Nat :=
  if !l.isEmpty && l.all Char.isDigit then
    some (l.foldl (fun a c => a * 10 + (c.toNat - 48)) 0)
  else none

def dashChar : Char := '-'

def dotChar : Char := '.'

def slashChar : Char := '/'

/-- `pd.to_datetime(s, errors="coerce")` restricted to the strict ISO-8601
date strings this app itself writes; anything else coerces to NaT (`none`). -/
def parseIsoDate (s : String) : Option Int :=
  match charListSplit dashChar s.data with
  | [ys, ms, ds] =>
    if ys.length = 4 ∧ ms.length = 2 ∧ ds.length = 2 then
      match digitsToNat ys, digitsToNat ms, digitsToNat ds with
      | some y, some m, some d =>
        if 1 ≤ m ∧ m ≤ 12 ∧ 1 ≤ d ∧ d ≤ daysInMonth y m then
          some (daysFromCivil y m d)
        else none
      | _, _, _ => none
    else none
  | _ => none

/-- Round a rational to the nearest integer with ties to even — the IEEE-754
`rint` rule that numpy/pandas `.round` applies (e.g. 312.5 rounds to 312,
313.5 rounds to 314). -/
def roundHalfEven (q : ℚ) : ℤ :=
  if q - (⌊q⌋ : ℚ) < 1 / 2 then ⌊q⌋
  else if (1 : ℚ) / 2 < q - (⌊q⌋ : ℚ) then ⌊q⌋ + 1
  else if ⌊q⌋ % 2 = 0 then ⌊q⌋ else ⌊q⌋ + 1

/-- Integer form of half-to-even rounding of the quotient `N / g`, by cases on
the doubled remainder against the divisor. -/
def natRoundHalfEven (N g : Nat) : Nat :=
  if 2 * (N % g) < g then N / g
  else if g < 2 * (N % g) then N / g + 1
  else if (N / g) % 2 = 0 then N / g else N / g + 1

/-- The derived attendance percentage, in hundredths of a percent:
`(opgedaag / genooi * 100).round(2) * 100` computed exactly over the
integers with the half-to-even tie rule of numpy/pandas rounding (so
`1 / 32` gives 312 hundredths = 3.12, not 3.13).  `none` models the
non-finite float (`inf` / `NaN`) that pandas produces for `genooi = 0`. -/
def pctHundredths (opgedaag genooi : Nat) : Option Nat :=
  if genooi = 0 then none
  else some (natRoundHalfEven (10000 * opgedaag) genooi)

/-- Rounding a rational to two decimal places under the half-to-even tie rule
of numpy/pandas `.round(2)`, written from the spec's wording ("rounded to 2
decimal places") for comparison with `pctHundredths`. -/
def round2 (q : ℚ) : ℚ := ((roundHalfEven (q * 100) : ℤ) : ℚ) / 100

/-- Zero-padded two-digit rendering of a natural number below 100. -/
def pad2 (n : Nat) : String :=
  if n < 10 then "0" ++ toString n else toString n

/-- Python `f"{x:.2f}%"` applied to the stored (already rounded) percentage;
`"nan%"` stands for the non-finite formatting of an undefined percentage. -/
def formatPct : Option Nat → String
  | some k => toString (k / 100) ++ "." ++ pad2 (k % 100) ++ "%"
  | none => "nan%"

/-- One row of the durable CSV table `intervensie_database.csv`, fields in the
declared column order.  Artifact path cells are `Option String` because an
empty cell reads back as NaN. -/
structure StoredRow where
  datum : String
  graad : String
  vak : String
  tema : String
  begintyd : String
  eindtyd : String
  totaalGenooi : Nat
  totaalOpgedaag : Nat
  opvoeder : String
  foto : Option String
  presFoto : Option String
  presDok : Option String
deriving DecidableEq

/-- A row as produced by `load_intervention_data` / `load_and_filter_data`:
the date parsed (NaT = `none`, original string retained for strftime
round-tripping) and the derived `Aanwesigheid %` column attached. -/
structure LoadedRow where
  datumStr : String
  datum : Option Int
  graad : String
  vak : String
  tema : String
  begintyd : String
  eindtyd : String
  totaalGenooi : Nat
  totaalOpgedaag : Nat
  opvoeder : String
  foto : Option String
  presFoto : Option String
  presDok : Option String
  pct : Option Nat
deriving DecidableEq

/-- Per-row effect of `df["Datum"] = pd.to_datetime(df["Datum"], errors="coerce")`
and `df["Aanwesigheid %"] = (df["Totaal Opgedaag"] / df["Totaal Genooi"] * 100).round(2)`. -/
def loadRow (s : StoredRow) : LoadedRow :=
  { datumStr := s.datum
    datum := parseIsoDate s.datum
    graad := s.graad
    vak := s.vak
    tema := s.tema
    begintyd := s.begintyd
    eindtyd := s.eindtyd
    totaalGenooi := s.totaalGenooi
    totaalOpgedaag := s.totaalOpgedaag
    opvoeder := s.opvoeder
    foto := s.foto
    presFoto := s.presFoto
    presDok := s.presDok
    pct := pctHundredths s.totaalOpgedaag s.totaalGenooi }

/-- Sort key of `sort_values("Datum", ...)`: NaT (`⊥`) sorts at the end. -/
def dateKey (r : LoadedRow) : WithBot ℤ :=
  match r.datum with
  | none => ⊥
  | some d => (d : WithBot ℤ)

/-- `a` may precede `b` in a descending date sort (NaT last, pandas
`na_position='last'`). -/
def dateGE (a b : LoadedRow) : Prop := dateKey b ≤ dateKey a

instance : DecidableRel dateGE :=
  fun a b => inferInstanceAs (Decidable (dateKey b ≤ dateKey a))

/-- `df.sort_values("Datum", ascending=False)`. -/
def sortDesc (l : List LoadedRow) : List LoadedRow := List.insertionSort dateGE l

/-- `load_intervention_data()`: read the table, coerce dates, attach the
derived percentage column, sort descending by date.  An empty table is
returned as-is. -/
def loadInterventionData (stored : List StoredRow) : List LoadedRow :=
  if stored.isEmpty then [] else sortDesc (stored.map loadRow)

/-- The `elif` chain on `filter_type` in `load_and_filter_data`: the lookback
cutoff `today - timedelta(days=n)`, or `none` when no window filter applies. -/
def windowStart (now : ℚ) (filterType : String) : Option ℚ :=
  if filterType = "Weekliks" then some (now - 7)
  else if filterType = "Maandeliks" then some (now - 30)
  else if filterType = "Kwartaalliks" then some (now - 90)
  else if filterType = "Jaarliks" then some (now - 365)
  else none

/-- `df[df["Datum"] >= start]` applied to one row: a NaT date compares False,
so it is excluded by every window filter; without a window cutoff every row
passes. -/
def passesWindow (now : ℚ) (filterType : String) (datum : Option Int) : Bool :=
  match windowStart now filterType with
  | none => true
  | some s =>
    match datum with
    | none => false
    | some d => decide (s ≤ (d : ℚ))

/-- `load_and_filter_data(filter_type, opvoeder, vak, graad)`.  A category
selector filters only when it is neither empty (Python falsy) nor "Alles". -/
def loadAndFilterData (now : ℚ) (filterType opv vak graad : String)
    (stored : List StoredRow) : List LoadedRow :=
  if stored.isEmpty then [] else
  let l0 := stored.map loadRow
  let l1 := l0.filter (fun r => passesWindow now filterType r.datum)
  let l2 := if opv ≠ "" ∧ opv ≠ "Alles" then l1.filter (fun r => r.opvoeder == opv) else l1
  let l3 := if vak ≠ "" ∧ vak ≠ "Alles" then l2.filter (fun r => r.vak == vak) else l2
  let l4 := if graad ≠ "" ∧ graad ≠ "Alles" then l3.filter (fun r => r.graad == graad) else l3
  sortDesc l4

/-- A submitted form.  `datum` is the already-formatted ISO date (the widget
always supplies a date object); `begintyd`/`eindtyd` are minutes past
midnight, the order in which Python compares `time` values. -/
structure Form where
  datum : String
  graad : String
  vak : String
  tema : String
  begintyd : Nat
  eindtyd : Nat
  totaalGenooi : Nat
  totaalOpgedaag : Nat
  opvoeder : String
  presFoto : Option String
  presDok : Option String
  foto : Option String
deriving DecidableEq

/-- The `all([datum, graad, vak, tema, begintyd, eindtyd, opvoeder,
totaal_genooi])` presence check.  `datum`, `begintyd` and `eindtyd` are
date/time objects and always truthy in Python ≥ 3.5, so only the strings and
the numeric `totaal_genooi` can fail the check. -/
def requiredOk (f : Form) : Prop :=
  f.graad ≠ "" ∧ f.vak ≠ "" ∧ f.tema ≠ "" ∧ f.opvoeder ≠ "" ∧ f.totaalGenooi ≠ 0

instance (f : Form) : Decidable (requiredOk f) := by
  unfold requiredOk; infer_instance

/-- The validation failures of the submit handler, in source order. -/
inductive SubmitError where
  | missingFields
  | attendedExceedsInvited
  | startNotBeforeEnd
  | noPresensie
deriving DecidableEq

/-- The `if/elif` validation chain of the `data_form` submit handler. -/
def validateForm (f : Form) : Option SubmitError :=
  if ¬ requiredOk f then some .missingFields
  else if f.totaalGenooi < f.totaalOpgedaag then some .attendedExceedsInvited
  else if f.eindtyd ≤ f.begintyd then some .startNotBeforeEnd
  else if f.presFoto = none ∧ f.presDok = none then some .noPresensie
  else none

/-- `os.path.splitext(name)[1]`: the extension including its dot, or "". -/
def extOf (n : String) : String :=
  match charListSplit dotChar n.data with
  | [] => ""
  | [_] => ""
  | parts => "." ++ String.mk (parts.getLastD [])

/-- The CSV row built from a validated submission: uploaded artifacts are
saved under timestamped names in the `fotos` / `presensies` buckets and the
row stores the relative paths (absent upload = empty cell = `none`). -/
def rowOfForm (f : Form) (timestamp : String) : StoredRow :=
  { datum := f.datum
    graad := f.graad
    vak := f.vak
    tema := f.tema
    begintyd := pad2 (f.begintyd / 60) ++ ":" ++ pad2 (f.begintyd % 60)
    eindtyd := pad2 (f.eindtyd / 60) ++ ":" ++ pad2 (f.eindtyd % 60)
    totaalGenooi := f.totaalGenooi
    totaalOpgedaag := f.totaalOpgedaag
    opvoeder := f.opvoeder
    foto := f.foto.map (fun n => "fotos/foto_" ++ timestamp ++ extOf n)
    presFoto := f.presFoto.map (fun n => "presensies/presensie_foto_" ++ timestamp ++ extOf n)
    presDok := f.presDok.map (fun n => "presensies/presensie_dokument_" ++ timestamp ++ extOf n) }

/-- The submit handler's effect on the durable table: on a validation failure
the table is untouched and the error reported; otherwise the new row is
appended (read CSV, concat one row, rewrite CSV). -/
def submitForm (f : Form) (table : List StoredRow) (timestamp : String) :
    List StoredRow × Option SubmitError :=
  match validateForm f with
  | some e => (table, some e)
  | none => (table ++ [rowOfForm f timestamp], none)

/-- `not token or token.strip() == ""`: the token is missing or whitespace. -/
def isBlankStr (s : String) : Bool := s.data.all (fun c => c = ' ')

/-- `upload_file_to_github`, by its branch structure: blank token, missing
local file, or any failing remote call (`get_repo` / `get_contents` +
`update_file` / `create_file`) returns False; otherwise True.  `remoteOk`
abstracts whether the remote calls succeed. -/
def uploadFileToGithub (token : String) (localExists remoteOk : Bool) : Bool :=
  if isBlankStr token then false
  else if !localExists then false
  else remoteOk

/-- The status message of the GitHub sync stage that runs after the local CSV
rewrite (`st.secrets.get` returning no value is modelled as ""). -/
def syncMessage (token repo : String) (localExists remoteOk : Bool) : String :=
  if token = "" ∨ repo = "" then "GitHub konfigurasie ontbreek in secrets."
  else if uploadFileToGithub token localExists remoteOk then
    "Data gestoor en gesinkroniseer met GitHub!"
  else "Data lokaal gestoor, maar GitHub sinkronisasie misluk."

/-- The whole submit path: validate, rewrite the local table, then attempt the
mirror and report its outcome.  The sync stage runs after the local write and
only produces a message. -/
def submitAndSync (f : Form) (table : List StoredRow) (timestamp : String)
    (token repo : String) (localExists remoteOk : Bool) :
    List StoredRow × Option SubmitError × Option String :=
  match validateForm f with
  | some e => (table, some e, none)
  | none =>
    (table ++ [rowOfForm f timestamp], none,
     some (syncMessage token repo localExists remoteOk))

/-- `if pd.notna(ref) and os.path.exists(ref): os.remove(ref)` — an absent
reference or an already-missing file is silently tolerated. -/
def removeIfExists (files : List String) : Option String → List String
  | none => files
  | some p => if p ∈ files then files.erase p else files

/-- The record at hand references artifact path `p`. -/
def refersTo (r : StoredRow) (p : String) : Prop :=
  r.foto = some p ∨ r.presFoto = some p ∨ r.presDok = some p

instance (r : StoredRow) (p : String) : Decidable (refersTo r p) := by
  unfold refersTo; infer_instance

/-- The deletion handler: drop the row at ordinal `idx` from the table (the
CSV is rewritten), then delete each referenced artifact that still exists.
An out-of-range ordinal raises (`full_df.loc[idx]` KeyError), modelled as
`none`, and changes nothing. -/
def deleteRecord (idx : Nat) (table : List StoredRow) (files : List String) :
    Option (List StoredRow × List String) :=
  match table.get? idx with
  | none => none
  | some row =>
    let f1 := removeIfExists files row.foto
    let f2 := removeIfExists f1 row.presFoto
    let f3 := removeIfExists f2 row.presDok
    some (table.eraseIdx idx, f3)

/-- Elements of the generated Word document, in document order. -/
inductive DocElem where
  | heading (text : String) (level : Nat)
  | para (text : String)
  | table (rows : List (List String))
  | picture (path : String)
deriving DecidableEq

/-- A parsed attendance sheet: its header (DataFrame columns) and data rows. -/
structure Sheet where
  hdr : List String
  rows : List (List String)
deriving DecidableEq

/-- The filesystem as the renderer and the deletion handler observe it:
which paths exist, and the parsed contents of the attendance sheets that
`pd.read_csv` / `pd.read_excel` can read (an unreadable or corrupt sheet is
absent from `sheets`, matching the `except` branch that returns None). -/
structure FileSys where
  existing : List String
  sheets : List (String × Sheet)
deriving DecidableEq

def fsExists (fs : FileSys) (p : String) : Bool := p ∈ fs.existing

def lookupSheet (fs : FileSys) (p : String) : Option Sheet := fs.sheets.lookup p

/-- `path.split('.')[-1].lower()`. -/
def extOfPath (p : String) : String :=
  String.mk (((charListSplit dotChar p.data).getLastD []).map Char.toLower)

/-- `os.path.basename(path)` for forward-slash paths. -/
def basename (p : String) : String :=
  String.mk ((charListSplit slashChar p.data).getLastD p.data)

/-- `read_presensie_to_table(path, max_rows=50)`: dispatch on the extension,
parse, and truncate to the first 50 data rows when there are more. -/
def readPresensieToTable (fs : FileSys) (p : String) : Option Sheet :=
  let ext := extOfPath p
  if ext = "csv" ∨ ext = "xls" ∨ ext = "xlsx" then
    match lookupSheet fs p with
    | none => none
    | some sh =>
      some { hdr := sh.hdr
             rows := if sh.rows.length > 50 then sh.rows.take 50 else sh.rows }
  else none

/-- `not df_p.empty`: a DataFrame is non-empty iff both axes are non-zero. -/
def sheetNonempty (sh : Sheet) : Bool := !sh.rows.isEmpty && !sh.hdr.isEmpty

def truncMsg : String := "... (tabel afgekort — slegs die eerste rye getoon)"

def noDataMsg : String := "Geen data vir die gekose filters nie."

def detailsHeading : String := "Details met Fotos en Presensielyste"

def reportTitle : String := "Saul Damon High School - Intervensie Verslag"

/-- The thirty-dash separator paragraph between detail entries. -/
def sepLine : String := "------------------------------"

/-- The inline sub-table built from a parsed attendance sheet (already
truncated by `readPresensieToTable`): at most the first 10 columns, and the
truncation notice when the (truncated) sheet still has at least 50 rows. -/
def subTableElems (sh : Sheet) : List DocElem :=
  DocElem.table (sh.hdr.take 10 :: sh.rows.map (fun r => r.take 10)) ::
    (if 50 ≤ sh.rows.length then [DocElem.para truncMsg] else [])

/-- The photo section of one detail entry. -/
def fotoElems (fs : FileSys) : Option String → List DocElem
  | some p =>
    if fsExists fs p then [DocElem.para "Foto:", DocElem.picture p]
    else [DocElem.para "Geen geldige foto gevind nie."]
  | none => [DocElem.para "Geen geldige foto gevind nie."]

/-- The attendance-list photo section of one detail entry. -/
def presFotoElems (fs : FileSys) (o : Option String) : List DocElem :=
  DocElem.para "Presensielys Foto:" ::
    match o with
    | some p =>
      if fsExists fs p then [DocElem.picture p]
      else [DocElem.para "Geen presensielys foto opgelaai nie."]
    | none => [DocElem.para "Geen presensielys foto opgelaai nie."]

/-- The attendance-list document section of one detail entry, following the
branch structure of `generate_word_report`: spreadsheet/delimited kinds are
tabulated inline, other kinds are referenced by filename only. -/
def presensieDocElems (fs : FileSys) (o : Option String) : List DocElem :=
  DocElem.para "Presensielys Dokument:" ::
    match o with
    | none => [DocElem.para "Geen presensielys dokument opgelaai nie."]
    | some p =>
      if fsExists fs p then
        if extOfPath p = "csv" ∨ extOfPath p = "xls" ∨ extOfPath p = "xlsx" then
          match readPresensieToTable fs p with
          | some sh =>
            if sheetNonempty sh then subTableElems sh
            else [DocElem.para ("Kon nie presensielys lees nie: " ++ basename p)]
          | none => [DocElem.para ("Kon nie presensielys lees nie: " ++ basename p)]
        else
          [DocElem.para ("Lêer: " ++ basename p ++ " (PDF of onbekende tipe - word in die map gehou)")]
      else [DocElem.para "Geen presensielys dokument opgelaai nie."]

/-- The report's filter description and generation-timestamp metadata. -/
structure ReportMeta where
  filterType : String
  opvoeder : String
  vak : String
  graad : String
  genTime : String
deriving DecidableEq

/-- The fixed document header: title, active filter description, timestamp. -/
def headerElems (m : ReportMeta) : List DocElem :=
  [DocElem.heading reportTitle 1,
   DocElem.para ("Filter: " ++ m.filterType ++ " | Opvoeder: " ++ m.opvoeder ++
     " | Vak: " ++ m.vak ++ " | Graad: " ++ m.graad),
   DocElem.para ("Gegenereer op: " ++ m.genTime),
   DocElem.para ""]

/-- The declared column order of the report's summary table. -/
def mainHeaderRow : List String :=
  ["Datum", "Graad", "Vak", "Tema", "Begintyd", "Eindtyd", "Totaal Genooi",
   "Totaal Opgedaag", "Opvoeder", "Aanwesigheid %"]

/-- `row['Datum'].strftime('%Y-%m-%d')`: raises on NaT; on a date parsed from
the strict ISO string it returns that string unchanged. -/
def rowDateText (r : LoadedRow) : Except String String :=
  match r.datum with
  | none => Except.error "NaTType does not support strftime"
  | some _ => Except.ok r.datumStr

/-- The cells of one summary-table row, given the formatted date. -/
def mainCellsWith (r : LoadedRow) (d : String) : List String :=
  [d, r.graad, r.vak, r.tema, r.begintyd, r.eindtyd, toString r.totaalGenooi,
   toString r.totaalOpgedaag, r.opvoeder, formatPct r.pct]

def mainRowCells (r : LoadedRow) : Except String (List String) :=
  match rowDateText r with
  | Except.error e => Except.error e
  | Except.ok d => Except.ok (mainCellsWith r d)

/-- The summary-table cells of a row whose date parsed. -/
def mainRowCellsOk (r : LoadedRow) : List String := mainCellsWith r r.datumStr

/-- Body of one per-record detail entry, given the formatted date. -/
def detailBody (fs : FileSys) (r : LoadedRow) (d : String) : List DocElem :=
  DocElem.heading ("Inskrywing: " ++ d ++ " - " ++ r.vak ++ " - " ++
      r.begintyd ++ " tot " ++ r.eindtyd) 3 ::
    (fotoElems fs r.foto ++ presFotoElems fs r.presFoto ++
     presensieDocElems fs r.presDok ++ [DocElem.para sepLine])

def detailBlock (fs : FileSys) (r : LoadedRow) : Except String (List DocElem) :=
  match rowDateText r with
  | Except.error e => Except.error e
  | Except.ok d => Except.ok (detailBody fs r d)

/-- The detail entry of a row whose date parsed. -/
def detailBlockOk (fs : FileSys) (r : LoadedRow) : List DocElem :=
  detailBody fs r r.datumStr

/-- Effectful map over a list, stopping at the first failure (the order in
which the Python loops hit a raising row). -/
def mapE {α β : Type} (f : α → Except String β) : List α → Except String (List β)
  | [] => Except.ok []
  | a :: l =>
    match f a with
    | Except.error e => Except.error e
    | Except.ok b =>
      match mapE f l with
      | Except.error e => Except.error e
      | Except.ok bs => Except.ok (b :: bs)

/-- `generate_word_report(df_to_export)`: header block, then for a non-empty
input the per-record summary table followed by the per-record detail entries;
for an empty input the single no-data paragraph. -/
def generateWordReport (m : ReportMeta) (fs : FileSys) (rows : List LoadedRow) :
    Except String (List DocElem) :=
  if rows.isEmpty then
    Except.ok (headerElems m ++ [DocElem.para noDataMsg])
  else
    match mapE mainRowCells rows with
    | Except.error e => Except.error e
    | Except.ok body =>
      match mapE (detailBlock fs) rows with
      | Except.error e => Except.error e
      | Except.ok details =>
        Except.ok (headerElems m ++
          DocElem.table (mainHeaderRow :: body) ::
          DocElem.para "" ::
          DocElem.heading detailsHeading 2 ::
          details.flatten)

/-- All text carried by a document element. -/
def elemTexts : DocElem → List String
  | DocElem.heading t _ => [t]
  | DocElem.para t => [t]
  | DocElem.table rws => rws.flatten
  | DocElem.picture p => [p]

/-- `needle` occurs as a contiguous subsequence of `hay`. -/
def containsSeq (hay needle : List Char) : Bool :=
  hay.tails.any (fun t => needle.isPrefixOf t)

/-- Some text in the document contains `s` as a substring. -/
def docContainsStr (doc : List DocElem) (s : String) : Bool :=
  ((doc.map elemTexts).flatten).any (fun t => containsSeq t.data s.data)

def docContainsE (e : Except String (List DocElem)) (s : String) : Bool :=
  match e with
  | Except.ok d => docContainsStr d s
  | Except.error _ => false

/-- Concrete data used in the claims below: a stored row whose date cell does
not parse. -/
def c6BadRow : StoredRow :=
  { datum := "onbekend", graad := "9", vak := "Tale", tema := "Lees",
    begintyd := "10:00", eindtyd := "11:00", totaalGenooi := 10,
    totaalOpgedaag := 4, opvoeder := "Me Y", foto := none, presFoto := none,
    presDok := none }

/-- Concrete data: a stored row with an invited count of zero (possible in the
CSV even though the form widget enforces a minimum of 1). -/
def c2ZeroRow : StoredRow :=
  { datum := "2024-03-01", graad := "8", vak := "Wiskunde", tema := "Tema",
    begintyd := "08:00", eindtyd := "09:00", totaalGenooi := 0,
    totaalOpgedaag := 0, opvoeder := "Mnr X", foto := none, presFoto := none,
    presDok := none }

/-- Concrete data: a form whose attended count exceeds its invited count but
is otherwise valid. -/
def c4Form : Form :=
  { datum := "2024-03-01", graad := "8", vak := "Wiskunde", tema := "Breuke",
    begintyd := 480, eindtyd := 540, totaalGenooi := 5, totaalOpgedaag := 9,
    opvoeder := "Mnr X", presFoto := some "lys.jpg", presDok := none,
    foto := none }

/-- Concrete data: a fully valid form submission. -/
def c9Form : Form :=
  { datum := "2024-03-02", graad := "10", vak := "Fisika", tema := "Kragte",
    begintyd := 600, eindtyd := 660, totaalGenooi := 12, totaalOpgedaag := 11,
    opvoeder := "Me Z", presFoto := none, presDok := some "lys.csv",
    foto := some "klas.png" }

/-- Concrete data: a valid form with an attendance-list photo attached. -/
def c10Form : Form :=
  { datum := "2024-03-03", graad := "11", vak := "Biologie", tema := "Selle",
    begintyd := 420, eindtyd := 450, totaalGenooi := 8, totaalOpgedaag := 8,
    opvoeder := "Mnr Q", presFoto := some "lys2.jpg", presDok := none,
    foto := none }

/-- Concrete data: a stored row referencing one artifact that exists and one
that is already missing from the filesystem. -/
def c8Row : StoredRow :=
  { datum := "2024-03-04", graad := "12", vak := "Geskiedenis", tema := "Oorsig",
    begintyd := "13:00", eindtyd := "14:00", totaalGenooi := 6,
    totaalOpgedaag := 5, opvoeder := "Me W",
    foto := some "fotos/foto_a.jpg",
    presFoto := some "presensies/presensie_foto_b.jpg", presDok := none }

/-- Concrete data: report metadata used by the empty-render witness. -/
def c7Meta : ReportMeta :=
  { filterType := "Alles", opvoeder := "Alles", vak := "Alles",
    graad := "Alles", genTime := "2024-03-15 10:00" }

/-- Concrete data for the summary-table claim: metadata whose strings contain
no digit pair "42". -/
def c1Meta : ReportMeta :=
  { filterType := "Weekliks", opvoeder := "Alles", vak := "Alles",
    graad := "Alles", genTime := "2024-03-15 10:00" }

def c1FS : FileSys := { existing := [], sheets := [] }

def c1RowA : StoredRow :=
  { datum := "2024-03-10", graad := "8", vak := "Wiskunde", tema := "Breuke",
    begintyd := "08:00", eindtyd := "09:00", totaalGenooi := 13,
    totaalOpgedaag := 5, opvoeder := "Mnr X", foto := none, presFoto := none,
    presDok := none }

def c1RowB : StoredRow :=
  { datum := "2024-03-12", graad := "9", vak := "Tale", tema := "Lees",
    begintyd := "10:00", eindtyd := "11:00", totaalGenooi := 29,
    totaalOpgedaag := 7, opvoeder := "Me Y", foto := none, presFoto := none,
    presDok := none }

/-- A concrete non-empty filtered sequence whose invited counts sum to 42. -/
def c1Rows : List LoadedRow := [loadRow c1RowA, loadRow c1RowB]

section Lemmas

/-- `mapE` returns `ok` of the pointwise map when every element succeeds. -/
theorem mapE_eq_ok_of {α β : Type} (f : α → Except String β) (g : α → β)
    (l : List α) (h : ∀ a ∈ l, f a = Except.ok (g a)) :
    mapE f l = Except.ok (l.map g) := by
  induction l with
  | nil => rfl
  | cons a t ih =>
    have ha := h a (by simp)
    have ht := ih (fun x hx => h x (by simp [hx]))
    simp [mapE, ha, ht]

theorem mainRowCells_eq_ok {r : LoadedRow} (h : r.datum.isSome = true) :
    mainRowCells r = Except.ok (mainRowCellsOk r) := by
  rcases hd : r.datum with _ | d
  · rw [hd] at h; simp at h
  · simp [mainRowCells, rowDateText, mainRowCellsOk, hd]

theorem detailBlock_eq_ok {fs : FileSys} {r : LoadedRow} (h : r.datum.isSome = true) :
    detailBlock fs r = Except.ok (detailBlockOk fs r) := by
  rcases hd : r.datum with _ | d
  · rw [hd] at h; simp at h
  · simp [detailBlock, rowDateText, detailBlockOk, hd]

/-- Membership in `removeIfExists` for duplicate-free file lists. -/
theorem removeIfExists_spec {files : List String} (hnd : files.Nodup)
    (o : Option String) :
    (removeIfExists files o).Nodup ∧
      ∀ p, p ∈ removeIfExists files o ↔ p ∈ files ∧ o ≠ some p := by
  cases o with
  | none => simpa [removeIfExists] using hnd
  | some q =>
    by_cases hq : q ∈ files
    · refine ⟨by simpa [removeIfExists, hq] using hnd.erase q, ?_⟩
      intro p
      simp only [removeIfExists, if_pos hq, hnd.mem_erase_iff, ne_eq,
        Option.some.injEq]
      constructor
      · rintro ⟨h1, h2⟩; exact ⟨h2, fun he => h1 he.symm⟩
      · rintro ⟨h1, h2⟩; exact ⟨fun he => h2 he.symm, h1⟩
    · refine ⟨by simpa [removeIfExists, hq] using hnd, ?_⟩
      intro p
      simp only [removeIfExists, if_neg hq, ne_eq, Option.some.injEq]
      constructor
      · intro hp; exact ⟨hp, fun he => hq (he ▸ hp)⟩
      · exact fun h => h.1

theorem roundHalfEven_of_lt {q : ℚ} (h : q - (⌊q⌋ : ℚ) < 1 / 2) :
    roundHalfEven q = ⌊q⌋ := by
  unfold roundHalfEven
  rw [if_pos h]

theorem roundHalfEven_of_gt {q : ℚ} (h : (1 : ℚ) / 2 < q - (⌊q⌋ : ℚ)) :
    roundHalfEven q = ⌊q⌋ + 1 := by
  unfold roundHalfEven
  rw [if_neg (by linarith), if_pos h]

theorem roundHalfEven_of_eq_even {q : ℚ} (h : q - (⌊q⌋ : ℚ) = 1 / 2)
    (hp : ⌊q⌋ % 2 = 0) : roundHalfEven q = ⌊q⌋ := by
  unfold roundHalfEven
  rw [if_neg (by rw [h]; exact lt_irrefl _), if_neg (by rw [h]; exact lt_irrefl _),
    if_pos hp]

theorem roundHalfEven_of_eq_odd {q : ℚ} (h : q - (⌊q⌋ : ℚ) = 1 / 2)
    (hp : ¬ ⌊q⌋ % 2 = 0) : roundHalfEven q = ⌊q⌋ + 1 := by
  unfold roundHalfEven
  rw [if_neg (by rw [h]; exact lt_irrefl _), if_neg (by rw [h]; exact lt_irrefl _),
    if_neg hp]

/-- Half-to-even rounding of the rational `N / g` agrees with its integer
remainder-based form. -/
theorem roundHalfEven_natCast_div (N g : Nat) (hg : 0 < g) :
    roundHalfEven ((N : ℚ) / (g : ℚ)) = ((natRoundHalfEven N g : ℕ) : ℤ) := by
  have hgq : (0 : ℚ) < (g : ℚ) := by exact_mod_cast hg
  have hfloor : ⌊(N : ℚ) / (g : ℚ)⌋ = ((N / g : ℕ) : ℤ) := by
    rw [Rat.floor_natCast_div_natCast]
    exact (Int.ofNat_div N g).symm
  have hNe : (N : ℚ) = (g : ℚ) * ((N / g : ℕ) : ℚ) + ((N % g : ℕ) : ℚ) := by
    exact_mod_cast congrArg (fun n : ℕ => (n : ℚ)) (Nat.div_add_mod N g).symm
  have hsub : (N : ℚ) / (g : ℚ) - (⌊(N : ℚ) / (g : ℚ)⌋ : ℚ) =
      ((N % g : ℕ) : ℚ) / (g : ℚ) := by
    rw [hfloor, Int.cast_natCast]
    field_simp
    linarith [hNe]
  rcases Nat.lt_trichotomy (2 * (N % g)) g with hlt | heq | hgt
  · have hfr : (N : ℚ) / (g : ℚ) - (⌊(N : ℚ) / (g : ℚ)⌋ : ℚ) < 1 / 2 := by
      rw [hsub, div_lt_iff₀ hgq]
      have hc : ((2 * (N % g) : ℕ) : ℚ) < (g : ℚ) := by exact_mod_cast hlt
      push_cast at hc
      linarith
    rw [roundHalfEven_of_lt hfr, hfloor]
    unfold natRoundHalfEven
    rw [if_pos hlt]
  · have hfr : (N : ℚ) / (g : ℚ) - (⌊(N : ℚ) / (g : ℚ)⌋ : ℚ) = 1 / 2 := by
      rw [hsub]
      have hc : ((2 * (N % g) : ℕ) : ℚ) = (g : ℚ) := by exact_mod_cast heq
      push_cast at hc
      field_simp
      linarith
    by_cases hpar : (N / g) % 2 = 0
    · rw [roundHalfEven_of_eq_even hfr (by rw [hfloor]; omega), hfloor]
      unfold natRoundHalfEven
      rw [if_neg (by omega), if_neg (by omega), if_pos hpar]
    · rw [roundHalfEven_of_eq_odd hfr (by rw [hfloor]; omega), hfloor]
      unfold natRoundHalfEven
      rw [if_neg (by omega), if_neg (by omega), if_neg hpar]
      push_cast
      ring
  · have hfr : (1 : ℚ) / 2 < (N : ℚ) / (g : ℚ) - (⌊(N : ℚ) / (g : ℚ)⌋ : ℚ) := by
      rw [hsub, lt_div_iff₀ hgq]
      have hc : (g : ℚ) < ((2 * (N % g) : ℕ) : ℚ) := by exact_mod_cast hgt
      push_cast at hc
      linarith
    rw [roundHalfEven_of_gt hfr, hfloor]
    unfold natRoundHalfEven
    rw [if_neg (by omega), if_pos hgt]
    push_cast
    ring

end Lemmas

/-- Claim C2 (counterexample): the claim asserts that a record with
`invited_count = 0` has `attendance_ratio = 0.0`.  In the code the derived
column is `(Totaal Opgedaag / Totaal Genooi * 100).round(2)`; pandas float
division by zero yields a non-finite value (`inf`, or `NaN` for `0/0`) rather
than `0.0`, modelled as `none`.  At the concrete record with
`invited_count = attended_count = 0` the derived ratio is not `0.0`. -/
theorem pct_at_zero_invited_is_not_zero :
    (loadRow c2ZeroRow).pct = none ∧ (loadRow c2ZeroRow).pct ≠ some 0 := by
  constructor
  · decide
  · decide

/-- Claim C2 (amended): for `invited_count > 0` the derived ratio is
`attended_count / invited_count * 100` rounded to 2 decimal places under the
half-to-even tie rule of pandas `.round(2)` (held in hundredths of a percent
and bridged to the exact rational formula); `invited_count = 20,
attended_count = 15` yields 75.00, and at the tie `invited_count = 32,
attended_count = 1` the stored value is 3.12.  For `invited_count = 0` no
exception is raised but the result is the non-finite pandas value (`none`),
not 0.0. -/
theorem pct_matches_rounded_formula (op gen : Nat) (h : 0 < gen) :
    (∃ k : Nat, pctHundredths op gen = some k ∧
        (k : ℚ) / 100 = round2 ((op : ℚ) / (gen : ℚ) * 100))
    ∧ (∀ a : Nat, pctHundredths a 0 = none)
    ∧ pctHundredths 15 20 = some 7500 ∧ ((7500 : ℚ) / 100 = 75)
    ∧ pctHundredths 1 32 = some 312 := by
  refine ⟨⟨natRoundHalfEven (10000 * op) gen, ?_, ?_⟩, ?_, by decide,
    by norm_num, by decide⟩
  · simp [pctHundredths, Nat.pos_iff_ne_zero.mp h]
  · have hg : (gen : ℚ) ≠ 0 := Nat.cast_ne_zero.mpr (Nat.pos_iff_ne_zero.mp h)
    have hx : (op : ℚ) / (gen : ℚ) * 100 * 100 =
        ((10000 * op : ℕ) : ℚ) / ((gen : ℕ) : ℚ) := by
      push_cast
      field_simp
      ring
    unfold round2
    rw [hx, roundHalfEven_natCast_div _ _ h, Int.cast_natCast]
  · intro a; simp [pctHundredths]

/-- Claim C2 witness: the amended formula instantiated at
`invited_count = 20, attended_count = 15`. -/
theorem pct_matches_rounded_formula_witness :
    ∃ k : Nat, pctHundredths 15 20 = some k ∧
      (k : ℚ) / 100 = round2 ((15 : ℚ) / (20 : ℚ) * 100) :=
  (pct_matches_rounded_formula 15 20 (by norm_num)).1

/-- Claim C3: a record passes the window filter iff its date is at least
`now - interval` (inclusive lower bound, no upper bound, so future-dated
records always pass); with the Weekly window and now = 2024-03-15, a record
dated 2024-03-08 (exactly 7 days back) is included and one dated 2024-03-07
is excluded.  The first conjunct ties the boundary predicate to
`load_and_filter_data` itself (with the category selectors at "Alles"). -/
theorem weekly_window_inclusive_lower_unbounded_upper :
    (∀ (now : ℚ) (ft : String) (stored : List StoredRow) (r : LoadedRow),
        r ∈ loadAndFilterData now ft "Alles" "Alles" "Alles" stored ↔
          (r ∈ stored.map loadRow ∧ passesWindow now ft r.datum = true))
    ∧ (∀ (now : ℚ) (d : ℤ),
        passesWindow now "Weekliks" (some d) = true ↔ now - 7 ≤ (d : ℚ))
    ∧ (∀ (now : ℚ) (d : ℤ),
        now ≤ (d : ℚ) → passesWindow now "Weekliks" (some d) = true)
    ∧ passesWindow ((daysFromCivil 2024 3 15 : ℤ) : ℚ) "Weekliks"
        (parseIsoDate "2024-03-08") = true
    ∧ passesWindow ((daysFromCivil 2024 3 15 : ℤ) : ℚ) "Weekliks"
        (parseIsoDate "2024-03-07") = false := by
  have hweek : ∀ (now : ℚ) (d : ℤ),
      passesWindow now "Weekliks" (some d) = true ↔ now - 7 ≤ (d : ℚ) := by
    intro now d
    simp [passesWindow, windowStart]
  refine ⟨?_, hweek, ?_, ?_, ?_⟩
  · intro now ft stored r
    by_cases hs : stored.isEmpty
    · have : stored = [] := List.isEmpty_iff.mp hs
      subst this
      simp [loadAndFilterData]
    · have hall : ¬ (("Alles" : String) ≠ "" ∧ ("Alles" : String) ≠ "Alles") := by
        simp
      simp only [loadAndFilterData, hs, if_neg hall, Bool.false_eq_true,
        if_false]
      rw [sortDesc, (List.perm_insertionSort dateGE _).mem_iff, List.mem_filter]
  · intro now d h
    exact (hweek now d).mpr (by linarith)
  · have h15 : daysFromCivil 2024 3 15 = 19797 := by decide
    have h8 : parseIsoDate "2024-03-08" = some 19790 := by decide
    rw [h15, h8, hweek]
    push_cast
    norm_num
  · have h15 : daysFromCivil 2024 3 15 = 19797 := by decide
    have h7 : parseIsoDate "2024-03-07" = some 19789 := by decide
    rw [h15, h7]
    have hne : ¬ (passesWindow ((19797 : ℤ) : ℚ) "Weekliks" (some 19789) = true) := by
      rw [hweek]
      push_cast
      norm_num
    exact Bool.eq_false_iff.mpr hne

/-- Claim C3 witness: a future-dated record (day 5, now = day 0) passes the
Weekly filter. -/
theorem weekly_window_witness : passesWindow 0 "Weekliks" (some 5) = true :=
  weekly_window_inclusive_lower_unbounded_upper.2.2.1 0 5 (by norm_num)

/-- Claim C6: `load_intervention_data` retains every stored row — the result
has exactly the stored row count, is a permutation of the per-row loads, and a
row whose date fails to parse is kept with its date marked unknown (pandas NaT,
modelled `none`) and all other fields intact. -/
theorem load_all_retains_every_row :
    (∀ stored : List StoredRow,
        (loadInterventionData stored).length = stored.length)
    ∧ (∀ stored : List StoredRow,
        (loadInterventionData stored).Perm (stored.map loadRow))
    ∧ (∀ s : StoredRow, parseIsoDate s.datum = none →
        (loadRow s).datum = none ∧ (loadRow s).datumStr = s.datum ∧
        (loadRow s).opvoeder = s.opvoeder ∧ (loadRow s).vak = s.vak ∧
        (loadRow s).totaalGenooi = s.totaalGenooi ∧
        (loadRow s).totaalOpgedaag = s.totaalOpgedaag) := by
  have hperm : ∀ stored : List StoredRow,
      (loadInterventionData stored).Perm (stored.map loadRow) := by
    intro stored
    by_cases hs : stored.isEmpty
    · have : stored = [] := List.isEmpty_iff.mp hs
      subst this
      simp [loadInterventionData]
    · simp only [loadInterventionData, hs, Bool.false_eq_true, if_false,
        sortDesc]
      exact List.perm_insertionSort dateGE _
  refine ⟨?_, hperm, ?_⟩
  · intro stored
    rw [(hperm stored).length_eq, List.length_map]
  · intro s h
    simp [loadRow, h]

/-- Claim C6 witness: a one-row table whose date cell is unparseable still
loads to one row, with the date marked unknown. -/
theorem load_all_retains_every_row_witness :
    (loadInterventionData [c6BadRow]).length = 1 ∧
      (loadRow c6BadRow).datum = none := by
  constructor
  · have h := load_all_retains_every_row.1 [c6BadRow]
    simpa using h
  · exact (load_all_retains_every_row.2.2 c6BadRow (by decide)).1

/-- Claim C4: a submission with `attended_count > invited_count` is rejected
by the validation chain (some `ValidationError` is reported) and the durable
table is returned unchanged — same rows, hence same row count. -/
theorem append_rejects_attended_exceeding_invited (f : Form)
    (table : List StoredRow) (ts : String)
    (h : f.totaalGenooi < f.totaalOpgedaag) :
    (submitForm f table ts).1 = table ∧
      (submitForm f table ts).2.isSome = true := by
  have hv : ∃ e, validateForm f = some e := by
    unfold validateForm
    by_cases hr : requiredOk f
    · exact ⟨SubmitError.attendedExceedsInvited, by simp [hr, h]⟩
    · exact ⟨SubmitError.missingFields, by simp [hr]⟩
  obtain ⟨e, he⟩ := hv
  simp [submitForm, he]

/-- Claim C4 witness: the rejection at a concrete form with 9 attendees out
of 5 invited, against the empty table. -/
theorem append_rejects_attended_exceeding_invited_witness :
    (submitForm c4Form [] "20240315_090000").1 = [] ∧
      (submitForm c4Form [] "20240315_090000").2.isSome = true :=
  append_rejects_attended_exceeding_invited c4Form [] "20240315_090000"
    (by decide)

/-- Claim C10: a submission attaching neither an attendance-list photo nor an
attendance-list document is rejected with a validation error and nothing is
persisted, even when every other check passes; attaching either one is
sufficient to pass this check (the submission then persists exactly the new
row). -/
theorem presensie_attachment_required (f : Form) (table : List StoredRow)
    (ts : String) (hreq : requiredOk f)
    (hcnt : f.totaalOpgedaag ≤ f.totaalGenooi)
    (ht : f.begintyd < f.eindtyd) :
    (f.presFoto = none ∧ f.presDok = none →
        submitForm f table ts = (table, some SubmitError.noPresensie))
    ∧ (f.presFoto ≠ none ∨ f.presDok ≠ none →
        submitForm f table ts = (table ++ [rowOfForm f ts], none)) := by
  have h2 : ¬ (f.totaalGenooi < f.totaalOpgedaag) := Nat.not_lt.mpr hcnt
  have h3 : ¬ (f.eindtyd ≤ f.begintyd) := Nat.not_le.mpr ht
  constructor
  · intro hp
    simp [submitForm, validateForm, hreq, h2, h3, hp.1, hp.2]
  · intro hp
    have hp2 : ¬ (f.presFoto = none ∧ f.presDok = none) := by
      rcases hp with h | h
      · exact fun hc => h hc.1
      · exact fun hc => h hc.2
    simp [submitForm, validateForm, hreq, h2, h3, hp2]

/-- Claim C10 witness: a concrete valid form with only an attendance-list
photo attached is accepted and appended. -/
theorem presensie_attachment_required_witness :
    submitForm c10Form [] "ts1" = ([rowOfForm c10Form "ts1"], none) := by
  have h := (presensie_attachment_required c10Form [] "ts1" (by decide)
    (by decide) (by decide)).2 (Or.inl (by decide))
  simpa using h

/-- Claim C9: once validation passes, the record is appended to the local
table no matter how the GitHub mirror stage turns out (unconfigured secrets,
missing local file, failing or succeeding remote calls), and the sync outcome
is only reported back as a message. -/
theorem sync_outcome_never_affects_local_write (f : Form)
    (table : List StoredRow) (ts : String) (h : validateForm f = none) :
    ∀ (token repo : String) (localExists remoteOk : Bool),
      (submitAndSync f table ts token repo localExists remoteOk).1 =
          table ++ [rowOfForm f ts]
      ∧ (submitAndSync f table ts token repo localExists remoteOk).2.1 = none
      ∧ (submitAndSync f table ts token repo localExists remoteOk).2.2 =
          some (syncMessage token repo localExists remoteOk) := by
  intro token repo le ro
  simp [submitAndSync, h]

/-- Claim C9 witness: the concrete valid form is persisted locally even with
no GitHub configuration and failing remote calls. -/
theorem sync_outcome_never_affects_local_write_witness :
    (submitAndSync c9Form [] "t9" "" "" false false).1 = [] ++ [rowOfForm c9Form "t9"]
    ∧ (submitAndSync c9Form [] "t9" "" "" false false).2.1 = none
    ∧ (submitAndSync c9Form [] "t9" "" "" false false).2.2 =
        some (syncMessage "" "" false false) :=
  sync_outcome_never_affects_local_write c9Form [] "t9" (by decide) "" "" false false

/-- Claim C8: deleting the record at a valid ordinal removes exactly that row
from the table and removes from the filesystem exactly the artifact paths the
record references; a referenced artifact already missing from the filesystem
is tolerated (deletion still succeeds, other files untouched). -/
theorem delete_cascades_artifacts_tolerates_missing (idx : Nat)
    (table : List StoredRow) (files : List String) (row : StoredRow)
    (hrow : table[idx]? = some row) (hnd : files.Nodup) :
    ∃ files3, deleteRecord idx table files = some (table.eraseIdx idx, files3)
      ∧ ∀ p : String, p ∈ files3 ↔ (p ∈ files ∧ ¬ refersTo row p) := by
  obtain ⟨h1n, h1⟩ := removeIfExists_spec hnd row.foto
  obtain ⟨h2n, h2⟩ := removeIfExists_spec h1n row.presFoto
  obtain ⟨h3n, h3⟩ := removeIfExists_spec h2n row.presDok
  refine ⟨removeIfExists (removeIfExists (removeIfExists files row.foto)
    row.presFoto) row.presDok, ?_, ?_⟩
  · simp [deleteRecord, hrow]
  · intro p
    rw [h3 p, h2 p, h1 p]
    simp only [refersTo, ne_eq]
    constructor
    · rintro ⟨⟨⟨hp, hf⟩, hpf⟩, hpd⟩
      exact ⟨hp, fun hc => by
        rcases hc with hc | hc | hc
        · exact hf hc
        · exact hpf hc
        · exact hpd hc⟩
    · rintro ⟨hp, hn⟩
      exact ⟨⟨⟨hp, fun hc => hn (Or.inl hc)⟩, fun hc => hn (Or.inr (Or.inl hc))⟩,
        fun hc => hn (Or.inr (Or.inr hc))⟩

/-- Claim C8 witness: deleting the only record, whose photo exists on disk
and whose attendance-list photo is already missing, succeeds and leaves
exactly the unreferenced file. -/
theorem delete_cascades_artifacts_tolerates_missing_witness :
    ∃ files3,
      deleteRecord 0 [c8Row] ["fotos/foto_a.jpg", "ander.txt"] =
        some (([c8Row] : List StoredRow).eraseIdx 0, files3)
      ∧ ∀ p : String, p ∈ files3 ↔
          (p ∈ ["fotos/foto_a.jpg", "ander.txt"] ∧ ¬ refersTo c8Row p) :=
  delete_cascades_artifacts_tolerates_missing 0 [c8Row]
    ["fotos/foto_a.jpg", "ander.txt"] c8Row (by decide) (by decide)

/-- Claim C7: on an empty record sequence the renderer succeeds and produces
the header block followed by the single no-data paragraph, with no summary
table and no detail section anywhere in the document. -/
theorem empty_render_emits_no_data_line (m : ReportMeta) (fs : FileSys) :
    generateWordReport m fs [] =
        Except.ok (headerElems m ++ [DocElem.para noDataMsg])
    ∧ (∀ t, DocElem.table t ∉ (headerElems m ++ [DocElem.para noDataMsg]))
    ∧ DocElem.heading detailsHeading 2 ∉
        (headerElems m ++ [DocElem.para noDataMsg]) := by
  refine ⟨rfl, ?_, ?_⟩
  · intro t
    simp [headerElems]
  · simp [headerElems]

/-- Claim C7 witness: the empty render at concrete metadata and an empty
filesystem. -/
theorem empty_render_emits_no_data_line_witness :
    generateWordReport c7Meta { existing := [], sheets := [] } [] =
      Except.ok (headerElems c7Meta ++ [DocElem.para noDataMsg]) :=
  (empty_render_emits_no_data_line c7Meta { existing := [], sheets := [] }).1

/-- Claim C5 (counterexample): the claim asserts the truncation marker is
emitted iff the source sheet has more than 50 rows.  The code truncates the
parsed sheet when it has *more* than 50 rows but emits the marker when the
(already truncated) sheet has *at least* 50 rows, so a sheet with exactly 50
rows is embedded in full and still gets the marker. -/
theorem trunc_marker_emitted_at_exactly_fifty :
    (List.replicate 50 (["x"] : List String)).length = 50
    ∧ DocElem.para truncMsg ∈
        presensieDocElems
          { existing := ["lys50.csv"],
            sheets := [("lys50.csv", { hdr := ["Naam"], rows := List.replicate 50 ["x"] })] }
          (some "lys50.csv") := by
  constructor
  · simp
  · decide

/-- Claim C5 (amended): for an attendance-sheet spreadsheet/delimited artifact
that exists and parses, exactly the first `min n 50` data rows are embedded
(each cut to the first 10 columns), and the truncation marker is emitted iff
the source has *at least* 50 data rows — so 120 rows embed 50 plus the
marker, 10 rows embed all 10 without it, and exactly 50 rows embed all 50 yet
still carry the marker. -/
theorem presensie_embed_and_marker (hdr : List String)
    (rows : List (List String)) (p : String) (hext : extOfPath p = "csv")
    (hrows : rows ≠ []) (hhdr : hdr ≠ []) :
    presensieDocElems ⟨[p], [(p, ⟨hdr, rows⟩)]⟩ (some p) =
      DocElem.para "Presensielys Dokument:" ::
        DocElem.table (hdr.take 10 :: (rows.take 50).map (fun r => r.take 10)) ::
        (if 50 ≤ rows.length then [DocElem.para truncMsg] else [])
    ∧ (rows.take 50).length = min rows.length 50
    ∧ ((DocElem.para truncMsg ∈
          presensieDocElems ⟨[p], [(p, ⟨hdr, rows⟩)]⟩ (some p))
        ↔ 50 ≤ rows.length) := by
  have hdfp : (if rows.length > 50 then rows.take 50 else rows) = rows.take 50 := by
    split
    · rfl
    · exact (List.take_of_length_le (by omega)).symm
  have hfs : fsExists ⟨[p], [(p, ⟨hdr, rows⟩)]⟩ p = true := by
    simp [fsExists]
  have hlk : lookupSheet ⟨[p], [(p, ⟨hdr, rows⟩)]⟩ p = some ⟨hdr, rows⟩ := by
    simp [lookupSheet, List.lookup]
  have hread : readPresensieToTable ⟨[p], [(p, ⟨hdr, rows⟩)]⟩ p =
      some ⟨hdr, rows.take 50⟩ := by
    simp [readPresensieToTable, hext, hlk, hdfp]
  have htk : rows.take 50 ≠ [] := by
    have : 0 < rows.length := List.length_pos.mpr hrows
    apply List.ne_nil_of_length_pos
    rw [List.length_take]
    omega
  have hnemp : sheetNonempty ⟨hdr, rows.take 50⟩ = true := by
    simp [sheetNonempty, List.isEmpty_iff, htk, hhdr]
  have hcond : (50 ≤ (rows.take 50).length) ↔ 50 ≤ rows.length := by
    rw [List.length_take]
    omega
  have helems : presensieDocElems ⟨[p], [(p, ⟨hdr, rows⟩)]⟩ (some p) =
      DocElem.para "Presensielys Dokument:" ::
        DocElem.table (hdr.take 10 :: (rows.take 50).map (fun r => r.take 10)) ::
        (if 50 ≤ rows.length then [DocElem.para truncMsg] else []) := by
    simp [presensieDocElems, hfs, hext, hread, hnemp, subTableElems, hcond]
  refine ⟨helems, by simp [List.length_take, Nat.min_comm], ?_⟩
  rw [helems]
  have hn1 : DocElem.para truncMsg ≠ DocElem.para "Presensielys Dokument:" := by
    decide
  have hn2 : ∀ rws, DocElem.para truncMsg ≠ DocElem.table rws := by
    intro rws h
    exact DocElem.noConfusion h
  constructor
  · intro hmem
    rcases List.mem_cons.mp hmem with h | hmem
    · exact absurd h hn1
    rcases List.mem_cons.mp hmem with h | hmem
    · exact absurd h (hn2 _)
    by_contra hlen
    rw [if_neg hlen] at hmem
    simp at hmem
  · intro hlen
    rw [if_pos hlen]
    simp

/-- Claim C5 witness: the amended statement at a concrete 120-row sheet —
exactly 50 rows are embedded and the marker is present. -/
theorem presensie_embed_and_marker_witness :
    DocElem.para truncMsg ∈
      presensieDocElems
        ⟨["lys.csv"], [("lys.csv", ⟨["Naam"], List.replicate 120 ["x"]⟩)]⟩
        (some "lys.csv")
    ∧ ((List.replicate 120 (["x"] : List String)).take 50).length = 50 := by
  have h := presensie_embed_and_marker ["Naam"] (List.replicate 120 ["x"])
    "lys.csv" (by decide) (by simp) (by simp)
  refine ⟨h.2.2.mpr (by simp), ?_⟩
  rw [h.2.1]
  simp

/-- Claim C1 (counterexample): the claim asserts the rendered document
contains a summary block with the record count, the sums of the invited and
attended counts and the mean of the per-record ratios.  At a concrete
two-record input whose invited counts sum to 42 (and whose mean of per-record
rounded percentages is 31.30), the rendered document contains neither the
numeral 42 nor 31.30 anywhere: no aggregate summary exists in the output. -/
theorem no_aggregate_summary_in_report :
    (c1Rows.map (fun r => r.totaalGenooi)).sum = 42
    ∧ (generateWordReport c1Meta c1FS c1Rows).isOk = true
    ∧ docContainsE (generateWordReport c1Meta c1FS c1Rows) "42" = false
    ∧ docContainsE (generateWordReport c1Meta c1FS c1Rows) "31.30" = false := by
  refine ⟨by decide, by decide, by decide, by decide⟩

/-- Claim C1 (amended): for every non-empty filtered record sequence whose
dates parsed, the renderer succeeds and the document contains a per-record
summary table: the declared header row followed by exactly one row per record
carrying that record's fields, including its invited count, attended count
and computed attendance percentage — but no aggregate count/sum/mean block. -/
theorem report_has_per_record_summary_table (m : ReportMeta) (fs : FileSys)
    (rows : List LoadedRow) (hne : rows ≠ [])
    (hdates : ∀ r ∈ rows, r.datum.isSome = true) :
    ∃ doc, generateWordReport m fs rows = Except.ok doc
      ∧ DocElem.table (mainHeaderRow :: rows.map mainRowCellsOk) ∈ doc
      ∧ (rows.map mainRowCellsOk).length = rows.length := by
  have hb : mapE mainRowCells rows = Except.ok (rows.map mainRowCellsOk) :=
    mapE_eq_ok_of _ _ _ (fun a ha => mainRowCells_eq_ok (hdates a ha))
  have hd : mapE (detailBlock fs) rows =
      Except.ok (rows.map (detailBlockOk fs)) :=
    mapE_eq_ok_of _ _ _ (fun a ha => detailBlock_eq_ok (hdates a ha))
  have he : rows.isEmpty = false := by
    cases rows
    · exact absurd rfl hne
    · rfl
  refine ⟨headerElems m ++
      DocElem.table (mainHeaderRow :: rows.map mainRowCellsOk) ::
      DocElem.para "" :: DocElem.heading detailsHeading 2 ::
      (rows.map (detailBlockOk fs)).flatten, ?_, ?_, by simp⟩
  · simp [generateWordReport, he, hb, hd]
  · simp

/-- Claim C1 witness: the per-record summary table at a concrete one-record
input. -/
theorem report_has_per_record_summary_table_witness :
    ∃ doc, generateWordReport c1Meta c1FS [loadRow c1RowA] = Except.ok doc
      ∧ DocElem.table (mainHeaderRow :: [loadRow c1RowA].map mainRowCellsOk) ∈ doc
      ∧ ([loadRow c1RowA].map mainRowCellsOk).length = [loadRow c1RowA].length :=
  report_has_per_record_summary_table c1Meta c1FS [loadRow c1RowA]
    (by simp) (by decide)

end Intervensie
